import Mathlib

/-!
Verification of the maven-artifact coordinate model, metadata / POM parsers
and resolver, shallowly embedded from the Rust sources.  Strings are
modelled as lists of characters, fallible operations return an explicit
result type, and the HTTP and filesystem collaborators are abstracted as
oracles passed to the resolver.
-/

/-- Strings of the embedding: a Rust `String` as its character sequence. -/
abbrev MStr := List Char

/-- Result type mirroring Rust `Result<A, Error>` with string error payloads. -/
inductive Res (α : Type) where
  | ok : α → Res α
  | err : MStr → Res α
deriving DecidableEq, Repr

/-- Mirrors `Result::is_ok`. -/
def Res.isOk {α : Type} : Res α → Bool
  | Res.ok _ => true
  | Res.err _ => false

/-- Rust `split(":")` (`str::split` with a one-character pattern):
the (always non-empty) list of fragments between `:` separators. -/
def splitColon : MStr → List MStr
  | [] => [[]]
  | c :: rest =>
    if c = ':' then [] :: splitColon rest
    else
      match splitColon rest with
      | [] => [[c]]
      | p :: ps => (c :: p) :: ps

/-- Rust `str::ends_with`: decides whether `suffix` ends `s`. -/
def ends_with (s suffix : MStr) : Bool := decide (suffix <:+ s)

/-- Rust `str::to_lowercase`, restricted to the per-character mapping. -/
def lowercase (s : MStr) : MStr := s.map Char.toLower

/-- Embeds `Version::is_snapshot` from `src/lib.rs`: ends with the literal `-SNAPSHOT`. -/
def Version.is_snapshot (v : MStr) : Bool := ends_with v "-SNAPSHOT".data

/-- Embeds `Version::is_latest` from `src/lib.rs`: lowercased form equals `latest`. -/
def Version.is_latest (v : MStr) : Bool := lowercase v = "latest".data

/-- Embeds `Version::is_release` from `src/lib.rs`: lowercased form equals `release`. -/
def Version.is_release (v : MStr) : Bool := lowercase v = "release".data

/-- Embeds `Version::is_meta_version` from `src/lib.rs`. -/
def Version.is_meta_version (v : MStr) : Bool := Version.is_latest v || Version.is_release v

/-- Embeds `GroupId::path_string`: dots replaced by slashes. -/
def path_string (g : MStr) : MStr := g.map (fun c => if c = '.' then '/' else c)

/-- The coordinate record from `lib/src/artifact.rs` (`struct Artifact`). -/
structure Artifact where
  group_id : MStr
  artifact_id : MStr
  version : Option MStr
  extension : Option MStr
  classifier : Option MStr
deriving DecidableEq, Repr

/-- Embeds `Artifact::is_snapshot`: false when no version is set. -/
def Artifact.is_snapshot (a : Artifact) : Bool :=
  match a.version with
  | some v => Version.is_snapshot v
  | none => false

/-- Embeds `Artifact::path` with the version unwrap made explicit (`none` models the panic). -/
def Artifact.path (a : Artifact) : Option MStr :=
  a.version.map fun v => path_string a.group_id ++ '/' :: a.artifact_id ++ '/' :: v

/-- The body of `Artifact::path` once the version is known to be present. -/
def path0 (a : Artifact) (v : MStr) : MStr :=
  path_string a.group_id ++ '/' :: a.artifact_id ++ '/' :: v

/-- Embeds `Artifact::file_name`: `artifactId-version.extension` with extension
defaulting to `jar`; the classifier is not used and the version is the
coordinate's own version.  `none` models the panic of the version unwrap. -/
def Artifact.file_name (a : Artifact) : Option MStr :=
  a.version.map fun v =>
    a.artifact_id ++ '-' :: v ++ '.' :: (a.extension.getD "jar".data)

/-- Embeds `Artifact::parse` from `lib/src/artifact.rs`: at least three colon
separated parts, interpreted as `g:a:v`, `g:a:e:v` or `g:a:e:c:v`. -/
def Artifact.parse (input : MStr) : Res Artifact :=
  let parts := splitColon input
  if parts.length ≥ 3 then
    match parts with
    | [g, a, v] => Res.ok ⟨g, a, some v, none, none⟩
    | [g, a, e, v] => Res.ok ⟨g, a, some v, some e, none⟩
    | [g, a, e, c, v] => Res.ok ⟨g, a, some v, some e, some c⟩
    | _ => Res.err "Unable to parse artifact".data
  else
    Res.err "Incorrect number of parts. Expected as least 3".data

/-- Embeds `impl Display for Artifact` (`render`): `g:a` then the extension and
classifier segments (materialising `jar` when only a classifier is set and
omitting a plain `jar` extension), then the version when present. -/
def Artifact.render (a : Artifact) : MStr :=
  let gav := a.group_id ++ ':' :: a.artifact_id
  let gav :=
    match a.extension, a.classifier with
    | some e, some c => gav ++ ':' :: e ++ ':' :: c
    | none, some c => gav ++ ':' :: "jar".data ++ ':' :: c
    | some e, none => if e ≠ "jar".data then gav ++ ':' :: e else gav
    | none, none => gav
  match a.version with
  | some v => gav ++ ':' :: v
  | none => gav

/-- The `PartialArtifact` wrapper from `lib/src/artifact.rs`. -/
structure PartialArtifact where
  group_id : MStr
  artifact_id : MStr
deriving DecidableEq, Repr

/-- Embeds `PartialArtifact::parse`: exactly two colon separated parts. -/
def PartialArtifact.parse (input : MStr) : Res PartialArtifact :=
  let parts := splitColon input
  if h : parts.length = 2 then
    Res.ok ⟨parts[0], parts[1]⟩
  else
    Res.err "There are not enough or too many parts".data

/-- Embeds `struct Repository` from `src/lib.rs`, reduced to the base URL's path
component (the only part the resolver's path arithmetic touches). -/
structure Repository where
  path : MStr
  snapshots : Bool
  releases : Bool
deriving DecidableEq, Repr

/-- Embeds `Repository::new`: strips a trailing slash from the base path
(`strip_suffix("/")` removes one occurrence) before any join.  `set_path`
on a special (http/https) URL keeps the path non-empty: setting the empty
string yields `/` again, so a host-only base (path `/`) is left unchanged. -/
def Repository.new (p : MStr) (snapshots releases : Bool) : Repository :=
  ⟨if ends_with p "/".data then
      (if p.dropLast = [] then "/".data else p.dropLast)
    else p, snapshots, releases⟩

/-- Embeds `struct ResolvedArtifact` from `lib/src/artifact.rs`. -/
structure ResolvedArtifact where
  artifact : Artifact
  resolved_version : MStr
deriving DecidableEq, Repr

/-- Embeds `ResolvedArtifact::path`: the version segment is the coordinate's own
version for snapshots and the resolved version otherwise.  The unwrap is
guarded: `is_snapshot` implies the version is present. -/
def ResolvedArtifact.rpath (ra : ResolvedArtifact) : MStr :=
  let base := path_string ra.artifact.group_id ++ '/' :: ra.artifact.artifact_id
  let version :=
    if Artifact.is_snapshot ra.artifact then ra.artifact.version.getD []
    else ra.resolved_version
  base ++ '/' :: version

/-- Embeds `ResolvedArtifact::uri`, as the path component of the joined URL: the
built string starts with the repository's (slash-stripped) base path and so
is an absolute-path reference, which `Url::join` takes verbatim. -/
def ResolvedArtifact.uri_path (ra : ResolvedArtifact) (repo : Repository) : MStr :=
  let current := repo.path ++ '/' :: ra.rpath ++ '/' :: ra.artifact.artifact_id
    ++ '-' :: ra.resolved_version
  let current :=
    match ra.artifact.classifier with
    | some c => current ++ '-' :: c
    | none => current
  current ++ '.' :: (ra.artifact.extension.getD "jar".data)

/-- Embeds `struct Snapshot` from `lib/src/metadata.rs` (`buildNumber` is an `i32`). -/
structure Snapshot where
  timestamp : MStr
  buildNumber : Int
deriving DecidableEq, Repr

/-- Embeds `struct SnapshotVersion` from `lib/src/metadata.rs`. -/
structure SnapshotVersion where
  classifier : Option MStr
  extension : Option MStr
  value : MStr
  updated : MStr
deriving DecidableEq, Repr

/-- Embeds `struct Versioning` from `lib/src/metadata.rs`: every child optional. -/
structure Versioning where
  latest : Option MStr
  release : Option MStr
  versions : Option (List MStr)
  last_updated : Option MStr
  snapshot : Option Snapshot
  snapshot_versions : Option (List SnapshotVersion)
deriving DecidableEq, Repr

/-- Embeds `Versioning::default()`. -/
def Versioning.default : Versioning := ⟨none, none, none, none, none, none⟩

/-- Embeds `struct VersionedMetadata` from `lib/src/metadata.rs`. -/
structure VersionedMetadata where
  group_id : MStr
  artifact_id : MStr
  versioning : Versioning
deriving DecidableEq, Repr

/-- Embeds `format!("{}", buildNumber)` for the `i32` build number. -/
def intToMStr (i : Int) : MStr := (toString i).data

/-- Outcome of `Resolver::download`: a successful download records the local
file name and the URL path fetched; `panic` models a Rust panic (an
unguarded `unwrap` of `None`). -/
inductive DlResult where
  | ok : MStr → MStr → DlResult
  | err : MStr → DlResult
  | panic : DlResult
deriving DecidableEq, Repr

/-- The snapshot-not-allowed message of `Resolver::download`. -/
def snapshot_not_allowed : MStr :=
  "You may not resolve snapshots from a non-snapshot repository".data

/-- Embeds `Resolver::download0`: GET the projected URL (the `httpOk` oracle stands
for the HTTP fetch succeeding) and stream the body to a file named by
`Artifact::file_name` inside the destination directory. -/
def download0 (repo : Repository) (httpOk : Bool) (ra : ResolvedArtifact) : DlResult :=
  if httpOk then
    match Artifact.file_name ra.artifact with
    | some f => DlResult.ok f (ResolvedArtifact.uri_path ra repo)
    | none => DlResult.panic
  else
    DlResult.err "Http error".data

/-- Embeds `Resolver::download` from `lib/src/resolver.rs`.  `fetch` abstracts
`maven_metadata`: it maps the metadata path fetched to the fetched-and-parsed
result (`Res.err` for an HTTP or parse failure). -/
def Resolver.download (repo : Repository) (fetch : MStr → Res VersionedMetadata)
    (httpOk : Bool) (a : Artifact) : DlResult :=
  match a.version with
  | none => DlResult.err "No version set".data
  | some version =>
    if Artifact.is_snapshot a then
      if repo.snapshots then
        match fetch (path0 a version) with
        | Res.err e => DlResult.err e
        | Res.ok meta =>
          match meta.versioning.snapshot with
          | none => DlResult.panic
          | some snapshot =>
            let meta_version := snapshot.timestamp ++ '-' :: intToMStr snapshot.buildNumber
            let versions := meta.versioning.snapshot_versions.getD []
            let found := versions.findSome? fun x =>
              if ends_with x.value meta_version then some x.value else none
            download0 repo httpOk ⟨a, found.getD version⟩
      else
        DlResult.err snapshot_not_allowed
    else if Version.is_meta_version version then
      match fetch (path0 a version) with
      | Res.err e => DlResult.err e
      | Res.ok meta =>
        let maybe_resolved :=
          if Version.is_release version then meta.versioning.release
          else meta.versioning.latest
        match maybe_resolved with
        | none => DlResult.err "Failed to download artifact".data
        | some resolved => download0 repo httpOk ⟨a, resolved⟩
    else
      download0 repo httpOk ⟨a, version⟩

/-- The `xml-rs` pull events the parsers inspect; namespaces and attributes
are ignored by the code, so only local names and character data remain. -/
inductive XmlEvent where
  | startElement : MStr → XmlEvent
  | endElement : MStr → XmlEvent
  | characters : MStr → XmlEvent
  | endDocument : XmlEvent
  | other : XmlEvent
deriving DecidableEq, Repr

/-- The error produced when the event stream runs out (a truncated document
makes `EventReader::next` fail in the Rust code). -/
def xml_eof : MStr := "Unexpected end of XML event stream".data

/-- Embeds `string_element`: expect a `Characters` event, then consume one further
event (the closing tag) unseen. -/
def string_element : List XmlEvent → Res (MStr × List XmlEvent)
  | XmlEvent.characters s :: rest =>
    match rest with
    | _ :: rest2 => Res.ok (s, rest2)
    | [] => Res.err xml_eof
  | _ :: _ => Res.err "Unexpected XML event".data
  | [] => Res.err xml_eof

/-- Embeds `parse::<i32>()` on the build number: optional sign, decimal digits,
within the `i32` range. -/
def parseI32 (s : MStr) : Option Int :=
  let digits : MStr → Option Nat := fun ds =>
    if ds = [] ∨ ¬ ds.all Char.isDigit then none
    else some (ds.foldl (fun acc c => acc * 10 + (c.toNat - 48)) 0)
  match s with
  | '+' :: rest => (digits rest).bind fun n =>
      if n ≤ 2147483647 then some (Int.ofNat n) else none
  | '-' :: rest => (digits rest).bind fun n =>
      if n ≤ 2147483648 then some (-(Int.ofNat n)) else none
  | _ => (digits s).bind fun n =>
      if n ≤ 2147483647 then some (Int.ofNat n) else none

/-- Embeds `VersionedMetadata::parse_snapshot`: walk events until `</snapshot>`,
collecting `timestamp` and `buildNumber`; both are required. -/
def parse_snapshot : Nat → Option MStr → Option Int → List XmlEvent →
    Res (Snapshot × List XmlEvent)
  | 0, _, _, _ => Res.err xml_eof
  | _ + 1, _, _, [] => Res.err xml_eof
  | fuel + 1, timestamp, build_number, ev :: rest =>
    match ev with
    | XmlEvent.endElement n =>
      if n = "snapshot".data then
        match timestamp, build_number with
        | some t, some b => Res.ok (⟨t, b⟩, rest)
        | none, _ => Res.err "Timestamp is missing".data
        | _, none => Res.err "buildNumber is missing".data
      else parse_snapshot fuel timestamp build_number rest
    | XmlEvent.startElement n =>
      if n = "timestamp".data then
        match string_element rest with
        | Res.err e => Res.err e
        | Res.ok (s, r) => parse_snapshot fuel (some s) build_number r
      else if n = "buildNumber".data then
        match string_element rest with
        | Res.err e => Res.err e
        | Res.ok (s, r) =>
          match parseI32 s with
          | none => Res.err "Failed to parse integer".data
          | some b => parse_snapshot fuel timestamp (some b) r
      else parse_snapshot fuel timestamp build_number rest
    | _ => parse_snapshot fuel timestamp build_number rest

/-- Embeds `VersionedMetadata::parse_snapshot_version`: walk events until
`</snapshotVersion>`; `value` and `updated` are required, `extension` and
`classifier` optional.  The error messages are the source's own. -/
def parse_snapshot_version : Nat → Option MStr → Option MStr → Option MStr →
    Option MStr → List XmlEvent → Res (SnapshotVersion × List XmlEvent)
  | 0, _, _, _, _, _ => Res.err xml_eof
  | _ + 1, _, _, _, _, [] => Res.err xml_eof
  | fuel + 1, value, updated, extension, classifier, ev :: rest =>
    match ev with
    | XmlEvent.endElement n =>
      if n = "snapshotVersion".data then
        match value, updated with
        | some v, some up => Res.ok (⟨classifier, extension, v, up⟩, rest)
        | none, _ => Res.err "Timestamp is missing".data
        | _, none => Res.err "buildNumber is missing".data
      else parse_snapshot_version fuel value updated extension classifier rest
    | XmlEvent.startElement n =>
      if n = "value".data then
        match string_element rest with
        | Res.err e => Res.err e
        | Res.ok (s, r) => parse_snapshot_version fuel (some s) updated extension classifier r
      else if n = "updated".data then
        match string_element rest with
        | Res.err e => Res.err e
        | Res.ok (s, r) => parse_snapshot_version fuel value (some s) extension classifier r
      else if n = "extension".data then
        match string_element rest with
        | Res.err e => Res.err e
        | Res.ok (s, r) => parse_snapshot_version fuel value updated (some s) classifier r
      else if n = "classifier".data then
        match string_element rest with
        | Res.err e => Res.err e
        | Res.ok (s, r) => parse_snapshot_version fuel value updated extension (some s) r
      else parse_snapshot_version fuel value updated extension classifier rest
    | _ => parse_snapshot_version fuel value updated extension classifier rest

/-- Embeds `VersionedMetadata::parse_versionining`: walk events until
`</versioning>`, collecting the optional children; `version` and
`snapshotVersion` entries accumulate and are published on the closing
`</versions>` / `</snapshotVersions>` tags. -/
def parse_versioning : Nat → Versioning → List MStr → List SnapshotVersion →
    List XmlEvent → Res (Versioning × List XmlEvent)
  | 0, _, _, _, _ => Res.err xml_eof
  | _ + 1, _, _, _, [] => Res.err xml_eof
  | fuel + 1, parsed, versions, snapshots, ev :: rest =>
    match ev with
    | XmlEvent.endElement n =>
      if n = "versioning".data then Res.ok (parsed, rest)
      else if n = "versions".data then
        parse_versioning fuel { parsed with versions := some versions } versions snapshots rest
      else if n = "snapshotVersions".data then
        parse_versioning fuel { parsed with snapshot_versions := some snapshots }
          versions snapshots rest
      else parse_versioning fuel parsed versions snapshots rest
    | XmlEvent.startElement n =>
      if n = "latest".data then
        match string_element rest with
        | Res.err e => Res.err e
        | Res.ok (s, r) => parse_versioning fuel { parsed with latest := some s } versions snapshots r
      else if n = "release".data then
        match string_element rest with
        | Res.err e => Res.err e
        | Res.ok (s, r) => parse_versioning fuel { parsed with release := some s } versions snapshots r
      else if n = "version".data then
        match string_element rest with
        | Res.err e => Res.err e
        | Res.ok (s, r) => parse_versioning fuel parsed (versions ++ [s]) snapshots r
      else if n = "lastUpdated".data then
        match string_element rest with
        | Res.err e => Res.err e
        | Res.ok (s, r) => parse_versioning fuel { parsed with last_updated := some s } versions snapshots r
      else if n = "snapshot".data then
        match parse_snapshot fuel none none rest with
        | Res.err e => Res.err e
        | Res.ok (s, r) => parse_versioning fuel { parsed with snapshot := some s } versions snapshots r
      else if n = "snapshotVersion".data then
        match parse_snapshot_version fuel none none none none rest with
        | Res.err e => Res.err e
        | Res.ok (s, r) => parse_versioning fuel parsed versions (snapshots ++ [s]) r
      else parse_versioning fuel parsed versions snapshots rest
    | _ => parse_versioning fuel parsed versions snapshots rest

/-- The main loop of `VersionedMetadata::parse`: scan to `EndDocument`; a
missing `groupId`, `artifactId` or `versioning` is then an error. -/
def parse_metadata : Nat → Option MStr → Option MStr → Option Versioning →
    List XmlEvent → Res VersionedMetadata
  | 0, _, _, _, _ => Res.err xml_eof
  | _ + 1, _, _, _, [] => Res.err xml_eof
  | fuel + 1, group_id, artifact_id, versioning, ev :: rest =>
    match ev with
    | XmlEvent.endDocument =>
      match group_id, artifact_id, versioning with
      | some g, some a, some v => Res.ok ⟨g, a, v⟩
      | none, _, _ => Res.err "Missing groupId".data
      | _, none, _ => Res.err "Missing artifact_id".data
      | _, _, none => Res.err "Missing versioning".data
    | XmlEvent.startElement n =>
      if n = "groupId".data then
        match string_element rest with
        | Res.err e => Res.err e
        | Res.ok (s, r) => parse_metadata fuel (some s) artifact_id versioning r
      else if n = "artifactId".data then
        match string_element rest with
        | Res.err e => Res.err e
        | Res.ok (s, r) => parse_metadata fuel group_id (some s) versioning r
      else if n = "versioning".data then
        match parse_versioning fuel Versioning.default [] [] rest with
        | Res.err e => Res.err e
        | Res.ok (v, r) => parse_metadata fuel group_id artifact_id (some v) r
      else parse_metadata fuel group_id artifact_id versioning rest
    | _ => parse_metadata fuel group_id artifact_id versioning rest

/-- Embeds `VersionedMetadata::parse` over an event stream.  The fuel bound
`length + 1` is never reached: every recursive step consumes at least one
event. -/
def VersionedMetadata.parse (events : List XmlEvent) : Res VersionedMetadata :=
  parse_metadata (events.length + 1) none none none events

/-- Embeds `struct Dependency` from `lib/src/project.rs`. -/
structure Dependency where
  artifact : Artifact
  scope : Option MStr
deriving DecidableEq, Repr

/-- Embeds `struct DependencyManagement` from `lib/src/project.rs`. -/
structure DependencyManagement where
  dependencies : List Dependency
deriving DecidableEq, Repr

/-- The property map: the `HashMap<String, String>` is modelled as an
association list where the most recent insertion is found first. -/
abbrev Props := List (MStr × MStr)

/-- Map lookup on the association-list model. -/
def plookup (k : MStr) : Props → Option MStr
  | [] => none
  | (k', v) :: rest => if k' = k then some v else plookup k rest

/-- Embeds `struct Project` from `lib/src/project.rs`. -/
structure Project where
  artifact : Artifact
  parent : Option Artifact
  dependency_management : DependencyManagement
  dependencies : List Dependency
  properties : Props
deriving DecidableEq, Repr

/-- Embeds `struct ArtifactState` from `lib/src/project.rs`. -/
structure ArtifactState where
  group_id : Option MStr
  artifact_id : Option MStr
  version : Option MStr
  extension : Option MStr
  classifier : Option MStr
deriving DecidableEq, Repr

/-- Embeds `ArtifactState::default()`. -/
def ArtifactState.default : ArtifactState := ⟨none, none, none, none, none⟩

/-- Embeds `ArtifactState::to_artifact`: `groupId` and `artifactId` are required. -/
def ArtifactState.to_artifact (s : ArtifactState) : Res Artifact :=
  match s.group_id with
  | none => Res.err "Missing groupId".data
  | some g =>
    match s.artifact_id with
    | none => Res.err "Missing artifactId".data
    | some a => Res.ok ⟨g, a, s.version, s.extension, s.classifier⟩

/-- Embeds `PomParser::parse_parent`: nested `groupId` / `artifactId` / `version`
until `</parent>`. -/
def parse_parent : Nat → ArtifactState → List XmlEvent → Res (Artifact × List XmlEvent)
  | 0, _, _ => Res.err xml_eof
  | _ + 1, _, [] => Res.err xml_eof
  | fuel + 1, state, ev :: rest =>
    match ev with
    | XmlEvent.endElement n =>
      if n = "parent".data then
        match state.to_artifact with
        | Res.err e => Res.err e
        | Res.ok a => Res.ok (a, rest)
      else parse_parent fuel state rest
    | XmlEvent.startElement n =>
      if n = "groupId".data then
        match string_element rest with
        | Res.err e => Res.err e
        | Res.ok (s, r) => parse_parent fuel { state with group_id := some s } r
      else if n = "artifactId".data then
        match string_element rest with
        | Res.err e => Res.err e
        | Res.ok (s, r) => parse_parent fuel { state with artifact_id := some s } r
      else if n = "version".data then
        match string_element rest with
        | Res.err e => Res.err e
        | Res.ok (s, r) => parse_parent fuel { state with version := some s } r
      else parse_parent fuel state rest
    | _ => parse_parent fuel state rest

/-- Embeds `PomParser::parse_dependency`: `groupId` / `artifactId` / `version` /
`type` (→ extension) / `classifier` / `scope` until `</dependency>`. -/
def parse_dependency : Nat → ArtifactState → Option MStr → List XmlEvent →
    Res (Dependency × List XmlEvent)
  | 0, _, _, _ => Res.err xml_eof
  | _ + 1, _, _, [] => Res.err xml_eof
  | fuel + 1, state, scope, ev :: rest =>
    match ev with
    | XmlEvent.endElement n =>
      if n = "dependency".data then
        match state.to_artifact with
        | Res.err e => Res.err e
        | Res.ok a => Res.ok (⟨a, scope⟩, rest)
      else parse_dependency fuel state scope rest
    | XmlEvent.startElement n =>
      if n = "groupId".data then
        match string_element rest with
        | Res.err e => Res.err e
        | Res.ok (s, r) => parse_dependency fuel { state with group_id := some s } scope r
      else if n = "artifactId".data then
        match string_element rest with
        | Res.err e => Res.err e
        | Res.ok (s, r) => parse_dependency fuel { state with artifact_id := some s } scope r
      else if n = "version".data then
        match string_element rest with
        | Res.err e => Res.err e
        | Res.ok (s, r) => parse_dependency fuel { state with version := some s } scope r
      else if n = "type".data then
        match string_element rest with
        | Res.err e => Res.err e
        | Res.ok (s, r) => parse_dependency fuel { state with extension := some s } scope r
      else if n = "classifier".data then
        match string_element rest with
        | Res.err e => Res.err e
        | Res.ok (s, r) => parse_dependency fuel { state with classifier := some s } scope r
      else if n = "scope".data then
        match string_element rest with
        | Res.err e => Res.err e
        | Res.ok (s, r) => parse_dependency fuel state (some s) r
      else parse_dependency fuel state scope rest
    | _ => parse_dependency fuel state scope rest

/-- Embeds `PomParser::parse_dependencies`: collect `<dependency>` entries in
document order until `</dependencies>`. -/
def parse_dependencies : Nat → List Dependency → List XmlEvent →
    Res (List Dependency × List XmlEvent)
  | 0, _, _ => Res.err xml_eof
  | _ + 1, _, [] => Res.err xml_eof
  | fuel + 1, acc, ev :: rest =>
    match ev with
    | XmlEvent.endElement n =>
      if n = "dependencies".data then Res.ok (acc, rest)
      else parse_dependencies fuel acc rest
    | XmlEvent.startElement n =>
      if n = "dependency".data then
        match parse_dependency fuel ArtifactState.default none rest with
        | Res.err e => Res.err e
        | Res.ok (d, r) => parse_dependencies fuel (acc ++ [d]) r
      else parse_dependencies fuel acc rest
    | _ => parse_dependencies fuel acc rest

/-- Embeds `PomParser::parse_dependency_management`: a nested `<dependencies>`
block until `</dependencyManagement>`. -/
def parse_dependency_management : Nat → DependencyManagement → List XmlEvent →
    Res (DependencyManagement × List XmlEvent)
  | 0, _, _ => Res.err xml_eof
  | _ + 1, _, [] => Res.err xml_eof
  | fuel + 1, state, ev :: rest =>
    match ev with
    | XmlEvent.endElement n =>
      if n = "dependencyManagement".data then Res.ok (state, rest)
      else parse_dependency_management fuel state rest
    | XmlEvent.startElement n =>
      if n = "dependencies".data then
        match parse_dependencies fuel [] rest with
        | Res.err e => Res.err e
        | Res.ok (ds, r) => parse_dependency_management fuel ⟨ds⟩ r
      else parse_dependency_management fuel state rest
    | _ => parse_dependency_management fuel state rest

/-- Embeds `PomParser::parse_properties`: every immediate child element's local
name becomes a key, its character data the value, until `</properties>`. -/
def parse_properties : Nat → Props → List XmlEvent → Res (Props × List XmlEvent)
  | 0, _, _ => Res.err xml_eof
  | _ + 1, _, [] => Res.err xml_eof
  | fuel + 1, state, ev :: rest =>
    match ev with
    | XmlEvent.endElement n =>
      if n = "properties".data then Res.ok (state, rest)
      else parse_properties fuel state rest
    | XmlEvent.startElement n =>
      match string_element rest with
      | Res.err e => Res.err e
      | Res.ok (s, r) => parse_properties fuel ((n, s) :: state) r
    | _ => parse_properties fuel state rest

/-- The main loop of `PomParser::parse_project`: scan to `EndDocument` and
emit the project; `to_artifact` then requires `groupId` and `artifactId`. -/
def parse_project : Nat → ArtifactState → Option Artifact → List Dependency →
    DependencyManagement → Props → List XmlEvent → Res Project
  | 0, _, _, _, _, _, _ => Res.err xml_eof
  | _ + 1, _, _, _, _, _, [] => Res.err xml_eof
  | fuel + 1, state, parent, dependencies, dependency_management, properties, ev :: rest =>
    match ev with
    | XmlEvent.endDocument =>
      match state.to_artifact with
      | Res.err e => Res.err e
      | Res.ok a => Res.ok ⟨a, parent, dependency_management, dependencies, properties⟩
    | XmlEvent.startElement n =>
      if n = "groupId".data then
        match string_element rest with
        | Res.err e => Res.err e
        | Res.ok (s, r) =>
          parse_project fuel { state with group_id := some s } parent dependencies
            dependency_management properties r
      else if n = "artifactId".data then
        match string_element rest with
        | Res.err e => Res.err e
        | Res.ok (s, r) =>
          parse_project fuel { state with artifact_id := some s } parent dependencies
            dependency_management properties r
      else if n = "version".data then
        match string_element rest with
        | Res.err e => Res.err e
        | Res.ok (s, r) =>
          parse_project fuel { state with version := some s } parent dependencies
            dependency_management properties r
      else if n = "packaging".data then
        match string_element rest with
        | Res.err e => Res.err e
        | Res.ok (s, r) =>
          parse_project fuel { state with extension := some s } parent dependencies
            dependency_management properties r
      else if n = "classifier".data then
        match string_element rest with
        | Res.err e => Res.err e
        | Res.ok (s, r) =>
          parse_project fuel { state with classifier := some s } parent dependencies
            dependency_management properties r
      else if n = "parent".data then
        match parse_parent fuel ArtifactState.default rest with
        | Res.err e => Res.err e
        | Res.ok (p, r) =>
          parse_project fuel state (some p) dependencies dependency_management properties r
      else if n = "dependencyManagement".data then
        match parse_dependency_management fuel ⟨[]⟩ rest with
        | Res.err e => Res.err e
        | Res.ok (dm, r) =>
          parse_project fuel state parent dependencies dm properties r
      else if n = "dependencies".data then
        match parse_dependencies fuel [] rest with
        | Res.err e => Res.err e
        | Res.ok (ds, r) =>
          parse_project fuel state parent ds dependency_management properties r
      else if n = "properties".data then
        match parse_properties fuel [] rest with
        | Res.err e => Res.err e
        | Res.ok (ps, r) =>
          parse_project fuel state parent dependencies dependency_management ps r
      else parse_project fuel state parent dependencies dependency_management properties rest
    | _ => parse_project fuel state parent dependencies dependency_management properties rest

/-- Embeds `PomParser::parse` over an event stream (fuel is never exhausted: every
recursive step consumes at least one event). -/
def PomParser.parse (events : List XmlEvent) : Res Project :=
  parse_project (events.length + 1) ArtifactState.default none [] ⟨[]⟩ [] events

/-- Modelled from the spec: the crate's `Project::parse` entry point used by
the resolver is not among the sources; per the spec it runs the POM parser
and then seeds the emitted `properties` map with `project.groupId`,
`project.artifactId` and `project.version` (when the corresponding
coordinate fields are present), inserting each only if absent so that
nothing read from the POM is overridden. -/
def seed_properties (a : Artifact) (props : Props) : Props :=
  let seed1 : MStr → Option MStr → Props → Props := fun key value p =>
    match value with
    | some v => if plookup key p = none then (key, v) :: p else p
    | none => p
  seed1 "project.groupId".data (some a.group_id)
    (seed1 "project.artifactId".data (some a.artifact_id)
      (seed1 "project.version".data a.version props))

/-- Modelled from the spec: `Project::parse` (missing from the sources) is
the POM parser followed by the property seeding described in the spec. -/
def Project.parse (events : List XmlEvent) : Res Project :=
  match PomParser.parse events with
  | Res.err e => Res.err e
  | Res.ok p => Res.ok { p with properties := seed_properties p.artifact p.properties }

/-- Event stream of a simple text element `<n>s</n>`. -/
def textElem (n s : MStr) : List XmlEvent :=
  [XmlEvent.startElement n, XmlEvent.characters s, XmlEvent.endElement n]

/-- Event stream of an optional text element. -/
def optTextElem (n : MStr) : Option MStr → List XmlEvent
  | some s => textElem n s
  | none => []

/-- Content of a `<versioning>` block in the well-formed document family
used to exercise the metadata parser. -/
structure VersioningDoc where
  latest : Option MStr
  release : Option MStr
deriving DecidableEq, Repr

/-- Event stream of a `<versioning>` block. -/
def versioningEvents (d : VersioningDoc) : List XmlEvent :=
  XmlEvent.startElement "versioning".data ::
    (optTextElem "latest".data d.latest ++ optTextElem "release".data d.release
      ++ [XmlEvent.endElement "versioning".data])

/-- A well-formed `maven-metadata.xml` event stream with optional
`groupId`, `artifactId` and `versioning` parts. -/
def metadataDoc (g a : Option MStr) (vd : Option VersioningDoc) : List XmlEvent :=
  optTextElem "groupId".data g ++ optTextElem "artifactId".data a
    ++ (match vd with
        | some d => versioningEvents d
        | none => [])
    ++ [XmlEvent.endDocument]

/-- The spec's account of metadata parsing on the document family: a record
when all three of `groupId`, `artifactId`, `versioning` were seen by the end
of the document, the matching `MALFORMED_METADATA` error otherwise. -/
def metadata_expected (g a : Option MStr) (vd : Option VersioningDoc) : Res VersionedMetadata :=
  match g, a, vd with
  | some gs, some a2, some d => Res.ok ⟨gs, a2, ⟨d.latest, d.release, none, none, none, none⟩⟩
  | none, _, _ => Res.err "Missing groupId".data
  | _, none, _ => Res.err "Missing artifact_id".data
  | _, _, none => Res.err "Missing versioning".data

/-- C6: on every document of the well-formed family, metadata parsing
returns an error exactly when, at the end of the document, no `groupId`, no
`artifactId` or no `versioning` element has been seen; when all three are
present it returns the parsed record. -/
theorem c6_metadata_required_fields (g a : Option MStr) (vd : Option VersioningDoc) :
    VersionedMetadata.parse (metadataDoc g a vd) = metadata_expected g a vd := by
  rcases g with _ | gs <;> rcases a with _ | a2 <;>
    rcases vd with _ | ⟨_ | ls, _ | rs⟩ <;> rfl

/-- A well-formed `pom.xml` event stream: project coordinates `gs:a2:vs`
and a `<properties>` block optionally pre-defining the three well-known
`project.*` keys. -/
def pomDoc (gs a2 vs : MStr) (opg opa opv : Option MStr) : List XmlEvent :=
  textElem "groupId".data gs ++ textElem "artifactId".data a2
    ++ textElem "version".data vs
    ++ (XmlEvent.startElement "properties".data ::
        (optTextElem "project.groupId".data opg
          ++ optTextElem "project.artifactId".data opa
          ++ optTextElem "project.version".data opv
          ++ [XmlEvent.endElement "properties".data]))
    ++ [XmlEvent.endDocument]

/-- C4: when the POM parser emits a project with all coordinate fields
present, the (spec-modelled) `Project::parse` properties map binds
`project.groupId`, `project.artifactId` and `project.version` to the
coordinate fields, except that a value the POM itself defined for one of
those keys is kept. -/
theorem c4_seeded_properties (gs a2 vs : MStr) (opg opa opv : Option MStr) :
    ∃ proj, Project.parse (pomDoc gs a2 vs opg opa opv) = Res.ok proj
      ∧ proj.artifact = ⟨gs, a2, some vs, none, none⟩
      ∧ plookup "project.groupId".data proj.properties = some (opg.getD gs)
      ∧ plookup "project.artifactId".data proj.properties = some (opa.getD a2)
      ∧ plookup "project.version".data proj.properties = some (opv.getD vs) := by
  rcases opg with _ | pg <;> rcases opa with _ | pa <;> rcases opv with _ | pv <;>
    exact ⟨_, rfl, rfl, rfl, rfl, rfl⟩

/-- C7: a version is a meta-version exactly when its lowercased form equals
`latest` or `release` (so `LATEST`, `Release`, `latest` all qualify), and a
snapshot exactly when it ends with the case-sensitive literal `-SNAPSHOT`
(so a version ending in `-snapshot` is not a snapshot). -/
theorem c7_version_classification (v : MStr) :
    (Version.is_meta_version v = true ↔
      (lowercase v = "latest".data ∨ lowercase v = "release".data))
    ∧ (Version.is_snapshot v = true ↔ "-SNAPSHOT".data <:+ v)
    ∧ Version.is_meta_version "LATEST".data = true
    ∧ Version.is_meta_version "Release".data = true
    ∧ Version.is_meta_version "latest".data = true
    ∧ Version.is_snapshot "1.0-SNAPSHOT".data = true
    ∧ Version.is_snapshot "1.0-snapshot".data = false := by
  refine ⟨?_, ?_, by decide, by decide, by decide, by decide, by decide⟩
  · simp [Version.is_meta_version, Version.is_latest, Version.is_release]
  · simp [Version.is_snapshot, ends_with]

/-- C5: partial-coordinate parsing succeeds exactly on 2 colon-separated
parts; full-coordinate parsing succeeds exactly on 3, 4 or 5 parts,
interpreted as `g:a:v`, `g:a:e:v` and `g:a:e:c:v`; every other part count
is a parse error. -/
theorem c5_parse_arity (input : MStr) :
    ((PartialArtifact.parse input).isOk = true ↔ (splitColon input).length = 2)
    ∧ ((Artifact.parse input).isOk = true ↔
        ((splitColon input).length = 3 ∨ (splitColon input).length = 4
          ∨ (splitColon input).length = 5))
    ∧ (∀ g a v, splitColon input = [g, a, v] →
        Artifact.parse input = Res.ok ⟨g, a, some v, none, none⟩)
    ∧ (∀ g a e v, splitColon input = [g, a, e, v] →
        Artifact.parse input = Res.ok ⟨g, a, some v, some e, none⟩)
    ∧ (∀ g a e c v, splitColon input = [g, a, e, c, v] →
        Artifact.parse input = Res.ok ⟨g, a, some v, some e, some c⟩) := by
  rcases h : splitColon input with
    _ | ⟨p1, _ | ⟨p2, _ | ⟨p3, _ | ⟨p4, _ | ⟨p5, _ | ⟨p6, rest⟩⟩⟩⟩⟩⟩ <;>
    refine ⟨?_, ?_, ?_, ?_, ?_⟩ <;>
      simp_all [Artifact.parse, PartialArtifact.parse, Res.isOk]

/-- Witness for C5 at the five-part coordinate `g:a:e:c:v`. -/
theorem c5_witness :
    Artifact.parse "g:a:e:c:v".data =
      Res.ok ⟨"g".data, "a".data, some "v".data, some "e".data, some "c".data⟩ :=
  (c5_parse_arity "g:a:e:c:v".data).2.2.2.2 "g".data "a".data "e".data "c".data "v".data
    (by decide)

/-- C10: full-coordinate parsing does not enforce non-empty components:
`::v` parses with empty `groupId` and `artifactId`, and every input with 3
to 5 colon-separated fields parses successfully. -/
theorem c10_empty_fields_parse :
    Artifact.parse "::v".data = Res.ok ⟨[], [], some "v".data, none, none⟩
    ∧ ∀ input : MStr,
        ((splitColon input).length = 3 ∨ (splitColon input).length = 4
          ∨ (splitColon input).length = 5) →
        (Artifact.parse input).isOk = true := by
  refine ⟨by decide, ?_⟩
  intro input h
  rcases hp : splitColon input with
    _ | ⟨p1, _ | ⟨p2, _ | ⟨p3, _ | ⟨p4, _ | ⟨p5, _ | ⟨p6, rest⟩⟩⟩⟩⟩⟩ <;>
    simp_all [Artifact.parse, Res.isOk]

/-- Witness for C10 at the four-part all-empty input `:::`. -/
theorem c10_witness : (Artifact.parse ":::".data).isOk = true :=
  c10_empty_fields_parse.2 ":::".data (by decide)

theorem splitColon_ne_nil (s : MStr) : splitColon s ≠ [] := by
  induction s with
  | nil => simp [splitColon]
  | cons c rest ih =>
    rw [splitColon]
    split
    · simp
    · rcases h : splitColon rest with _ | ⟨p, ps⟩ <;> simp [h]

theorem splitColon_no_colon (x : MStr) (hx : ':' ∉ x) : splitColon x = [x] := by
  induction x with
  | nil => rfl
  | cons c x ih =>
    have hc : ¬ (c = ':') := fun h => hx (by simp [h])
    have hx2 : ':' ∉ x := fun h => hx (List.mem_cons_of_mem _ h)
    rw [splitColon, if_neg hc, ih hx2]

theorem splitColon_append (x : MStr) (hx : ':' ∉ x) (rest : MStr) :
    splitColon (x ++ ':' :: rest) = x :: splitColon rest := by
  induction x with
  | nil => simp [splitColon]
  | cons c x ih =>
    have hc : ¬ (c = ':') := fun h => hx (by simp [h])
    have hx2 : ':' ∉ x := fun h => hx (List.mem_cons_of_mem _ h)
    rw [List.cons_append, splitColon, if_neg hc, ih hx2]

theorem splitColon_chain3 (x y z : MStr) (hx : ':' ∉ x) (hy : ':' ∉ y) (hz : ':' ∉ z) :
    splitColon ((x ++ ':' :: y) ++ ':' :: z) = [x, y, z] := by
  simp only [List.append_assoc, List.cons_append]
  rw [splitColon_append x hx, splitColon_append y hy, splitColon_no_colon z hz]

theorem splitColon_chain4 (x y z w : MStr)
    (hx : ':' ∉ x) (hy : ':' ∉ y) (hz : ':' ∉ z) (hw : ':' ∉ w) :
    splitColon (((x ++ ':' :: y) ++ ':' :: z) ++ ':' :: w) = [x, y, z, w] := by
  simp only [List.append_assoc, List.cons_append]
  rw [splitColon_append x hx, splitColon_append y hy, splitColon_append z hz,
    splitColon_no_colon w hw]

theorem splitColon_chain5 (x y z w u : MStr)
    (hx : ':' ∉ x) (hy : ':' ∉ y) (hz : ':' ∉ z) (hw : ':' ∉ w) (hu : ':' ∉ u) :
    splitColon ((((x ++ ':' :: y) ++ ':' :: z) ++ ':' :: w) ++ ':' :: u) =
      [x, y, z, w, u] := by
  simp only [List.append_assoc, List.cons_append]
  rw [splitColon_append x hx, splitColon_append y hy, splitColon_append z hz,
    splitColon_append w hw, splitColon_no_colon u hu]

/-- The extension clause of claim C3 as stated: after the round trip the
extension is `None` in both coordinates or the same non-`jar` string in
both. -/
def ext_claim_ok (c d : Artifact) : Prop :=
  (c.extension = none ∧ d.extension = none) ∨
  (∃ s, s ≠ "jar".data ∧ c.extension = some s ∧ d.extension = some s)

/-- The coordinate refuting claim C3 as stated: extension `jar`, no
classifier. -/
def c3ex : Artifact := ⟨"g".data, "a".data, some "v".data, some "jar".data, none⟩

/-- Counterexample to C3 as stated: rendering `c3ex` drops the `jar`
extension segment, so re-parsing yields extension `None` while the input
extension is `Some "jar"` — neither `None` in both nor the same non-`jar`
string in both. -/
theorem c3_counterexample :
    c3ex.group_id ≠ [] ∧ c3ex.artifact_id ≠ [] ∧
    Artifact.parse (Artifact.render c3ex) =
      Res.ok ⟨"g".data, "a".data, some "v".data, none, none⟩ ∧
    ¬ ext_claim_ok c3ex ⟨"g".data, "a".data, some "v".data, none, none⟩ := by
  refine ⟨by decide, by decide, by decide, ?_⟩
  rintro (⟨h1, -⟩ | ⟨s, -, -, h2⟩)
  · exact absurd h1 (by decide)
  · exact Option.noConfusion h2

/-- C3 amended: for every full coordinate with non-empty `groupId` and
`artifactId` and no colon inside any field, parsing the rendered string
yields a coordinate equal to the input in `groupId`, `artifactId`,
`version` and `classifier`; the extension is preserved verbatim when it is
a non-`jar` string, while an absent or `jar` extension re-parses as `None`
when the classifier is absent and as `Some "jar"` when it is present. -/
theorem c3_parse_render_roundtrip (g a v : MStr) (e cl : Option MStr)
    (hg : g ≠ [] ∧ ':' ∉ g) (ha : a ≠ [] ∧ ':' ∉ a) (hv : ':' ∉ v)
    (he : ∀ s, e = some s → ':' ∉ s) (hc : ∀ s, cl = some s → ':' ∉ s) :
    ∃ d, Artifact.parse (Artifact.render ⟨g, a, some v, e, cl⟩) = Res.ok d
      ∧ d.group_id = g ∧ d.artifact_id = a ∧ d.version = some v ∧ d.classifier = cl
      ∧ d.extension =
          (if e = none ∨ e = some "jar".data then
            (if cl.isSome then some "jar".data else none)
          else e) := by
  have hjar : ':' ∉ "jar".data := by decide
  rcases e with _ | s
  · rcases cl with _ | cc
    · refine ⟨⟨g, a, some v, none, none⟩, ?_, rfl, rfl, rfl, rfl, by simp⟩
      have key : splitColon (Artifact.render ⟨g, a, some v, none, none⟩) = [g, a, v] :=
        splitColon_chain3 g a v hg.2 ha.2 hv
      simp [Artifact.parse, key]
    · refine ⟨⟨g, a, some v, some "jar".data, some cc⟩, ?_, rfl, rfl, rfl, rfl, by simp⟩
      have key : splitColon (Artifact.render ⟨g, a, some v, none, some cc⟩) =
          [g, a, "jar".data, cc, v] :=
        splitColon_chain5 g a "jar".data cc v hg.2 ha.2 hjar (hc cc rfl) hv
      simp [Artifact.parse, key]
  · by_cases hs : s = "jar".data
    · subst hs
      rcases cl with _ | cc
      · refine ⟨⟨g, a, some v, none, none⟩, ?_, rfl, rfl, rfl, rfl, by simp⟩
        have hr : Artifact.render ⟨g, a, some v, some "jar".data, none⟩ =
            (g ++ ':' :: a) ++ ':' :: v := by
          simp [Artifact.render]
        rw [hr]
        have key := splitColon_chain3 g a v hg.2 ha.2 hv
        simp only [List.append_assoc, List.cons_append] at key
        simp [Artifact.parse, key]
      · refine ⟨⟨g, a, some v, some "jar".data, some cc⟩, ?_, rfl, rfl, rfl, rfl, by simp⟩
        have key : splitColon (Artifact.render ⟨g, a, some v, some "jar".data, some cc⟩) =
            [g, a, "jar".data, cc, v] :=
          splitColon_chain5 g a "jar".data cc v hg.2 ha.2 hjar (hc cc rfl) hv
        simp [Artifact.parse, key]
    · rcases cl with _ | cc
      · refine ⟨⟨g, a, some v, some s, none⟩, ?_, rfl, rfl, rfl, rfl, by simp [hs]⟩
        have hr : Artifact.render ⟨g, a, some v, some s, none⟩ =
            ((g ++ ':' :: a) ++ ':' :: s) ++ ':' :: v := by
          simp [Artifact.render, hs]
        rw [hr]
        have key := splitColon_chain4 g a s v hg.2 ha.2 (he s rfl) hv
        simp only [List.append_assoc, List.cons_append] at key
        simp [Artifact.parse, key]
      · refine ⟨⟨g, a, some v, some s, some cc⟩, ?_, rfl, rfl, rfl, rfl, by simp [hs]⟩
        have key : splitColon (Artifact.render ⟨g, a, some v, some s, some cc⟩) =
            [g, a, s, cc, v] :=
          splitColon_chain5 g a s cc v hg.2 ha.2 (he s rfl) (hc cc rfl) hv
        simp [Artifact.parse, key]

/-- Witness for the amended C3 at `g:a:pom:c:1`. -/
theorem c3_witness :
    ∃ d, Artifact.parse (Artifact.render
        ⟨"g".data, "a".data, some "1".data, some "pom".data, some "c".data⟩) = Res.ok d
      ∧ d.group_id = "g".data ∧ d.artifact_id = "a".data ∧ d.version = some "1".data
      ∧ d.classifier = some "c".data
      ∧ d.extension =
          (if (some "pom".data : Option MStr) = none
              ∨ (some "pom".data : Option MStr) = some "jar".data then
            (if (some "c".data : Option MStr).isSome then some "jar".data else none)
          else some "pom".data) :=
  c3_parse_render_roundtrip "g".data "a".data "1".data (some "pom".data) (some "c".data)
    (by decide) (by decide) (by decide)
    (by intro s h; cases h; decide) (by intro s h; cases h; decide)

theorem findSome_if_eq_find {α β : Type} (p : α → Bool) (f : α → β) (l : List α) :
    (l.findSome? fun x => if p x then some (f x) else none) = (l.find? p).map f := by
  induction l with
  | nil => rfl
  | cons x xs ih =>
    by_cases hp : p x <;> simp [List.findSome?_cons, List.find?_cons, hp, ih]

theorem download0_ok (repo : Repository) (httpOk : Bool) (ra : ResolvedArtifact)
    (f u : MStr) (h : download0 repo httpOk ra = DlResult.ok f u) :
    ∃ v, ra.artifact.version = some v
      ∧ f = ra.artifact.artifact_id ++ '-' :: v ++ '.' ::
          (ra.artifact.extension.getD "jar".data)
      ∧ u = ResolvedArtifact.uri_path ra repo := by
  unfold download0 at h
  split at h
  · rcases hf : Artifact.file_name ra.artifact with _ | f2 <;> rw [hf] at h
    · exact DlResult.noConfusion h
    · injection h with h1 h2
      rcases Option.map_eq_some'.mp hf with ⟨v, hv, hfv⟩
      exact ⟨v, hv, by rw [← h1, ← hfv], h2.symm⟩
  · exact DlResult.noConfusion h

/-- C1 amended: every successful download creates a file named
`artifactId-V.extension` where `V` is the coordinate's own version (not the
resolved version) and the classifier never appears; the resolved version
shapes only the URL fetched. -/
theorem c1_local_file_name (repo : Repository) (fetch : MStr → Res VersionedMetadata)
    (httpOk : Bool) (a : Artifact) (f u : MStr)
    (h : Resolver.download repo fetch httpOk a = DlResult.ok f u) :
    ∃ v, a.version = some v
      ∧ f = a.artifact_id ++ '-' :: v ++ '.' :: (a.extension.getD "jar".data)
      ∧ ∃ rv, u = ResolvedArtifact.uri_path ⟨a, rv⟩ repo := by
  unfold Resolver.download at h
  rcases hv : a.version with _ | version <;> rw [hv] at h
  · exact DlResult.noConfusion h
  · simp only [] at h
    split at h
    · split at h
      · split at h
        · exact DlResult.noConfusion h
        · split at h
          · exact DlResult.noConfusion h
          · obtain ⟨v2, hv2, hf2, hu2⟩ := download0_ok _ _ _ _ _ h
            have hv2b : a.version = some v2 := hv2
            rw [hv] at hv2b
            injection hv2b with he2
            subst he2
            exact ⟨_, rfl, hf2, _, hu2⟩
      · exact DlResult.noConfusion h
    · split at h
      · split at h
        · exact DlResult.noConfusion h
        · split at h
          · exact DlResult.noConfusion h
          · obtain ⟨v2, hv2, hf2, hu2⟩ := download0_ok _ _ _ _ _ h
            have hv2b : a.version = some v2 := hv2
            rw [hv] at hv2b
            injection hv2b with he2
            subst he2
            exact ⟨_, rfl, hf2, _, hu2⟩
      · obtain ⟨v2, hv2, hf2, hu2⟩ := download0_ok _ _ _ _ _ h
        have hv2b : a.version = some v2 := hv2
        rw [hv] at hv2b
        injection hv2b with he2
        subst he2
        exact ⟨_, rfl, hf2, _, hu2⟩

/-- Metadata served for the `RELEASE` counterexample of C1. -/
def c1_meta : VersionedMetadata :=
  ⟨"org.example".data, "lib".data,
    ⟨some "1.2.3".data, some "1.2.3".data, some ["1.2.3".data], none, none, none⟩⟩

/-- Maven-central-like repository for the C1 counterexample. -/
def c1_repo : Repository := Repository.new "/maven2/".data false true

/-- The coordinate `org.example:lib:RELEASE`. -/
def c1_artifact : Artifact :=
  ⟨"org.example".data, "lib".data, some "RELEASE".data, none, none⟩

/-- Counterexample to C1 as stated: resolving `org.example:lib:RELEASE`
against metadata whose release pointer is `1.2.3` fetches
`.../1.2.3/lib-1.2.3.jar` but names the local file `lib-RELEASE.jar`, not
`lib-1.2.3.jar` (the `artifactId-resolvedVersion.extension` the claim
demands). -/
theorem c1_counterexample :
    Resolver.download c1_repo (fun _ => Res.ok c1_meta) true c1_artifact =
      DlResult.ok "lib-RELEASE.jar".data
        "/maven2/org/example/lib/1.2.3/lib-1.2.3.jar".data
    ∧ "lib-RELEASE.jar".data ≠ "lib-1.2.3.jar".data := by decide

/-- Witness for the amended C1 on the `RELEASE` scenario. -/
theorem c1_witness :
    ∃ v, c1_artifact.version = some v
      ∧ "lib-RELEASE.jar".data =
          c1_artifact.artifact_id ++ '-' :: v ++ '.' ::
            (c1_artifact.extension.getD "jar".data)
      ∧ ∃ rv, "/maven2/org/example/lib/1.2.3/lib-1.2.3.jar".data =
          ResolvedArtifact.uri_path ⟨c1_artifact, rv⟩ c1_repo :=
  c1_local_file_name c1_repo (fun _ => Res.ok c1_meta) true c1_artifact
    "lib-RELEASE.jar".data "/maven2/org/example/lib/1.2.3/lib-1.2.3.jar".data
    (by decide)

/-- C2: for a snapshot coordinate, download fails with the
snapshot-not-allowed error when the repository does not serve snapshots;
otherwise the versioned metadata is fetched and the resolved version is the
value of the first `snapshotVersions` entry whose value ends with the tag
`timestamp-buildNumber`, falling back to the literal coordinate version
when no entry matches. -/
theorem c2_snapshot_resolution (repo : Repository) (fetch : MStr → Res VersionedMetadata)
    (httpOk : Bool) (a : Artifact) (v : MStr)
    (hv : a.version = some v) (hs : Artifact.is_snapshot a = true) :
    (repo.snapshots = false →
      Resolver.download repo fetch httpOk a = DlResult.err snapshot_not_allowed)
    ∧ (repo.snapshots = true →
        (∀ e, fetch (path0 a v) = Res.err e →
          Resolver.download repo fetch httpOk a = DlResult.err e)
        ∧ ∀ meta snap, fetch (path0 a v) = Res.ok meta →
            meta.versioning.snapshot = some snap →
            (∀ entry, (meta.versioning.snapshot_versions.getD []).find?
                (fun x => ends_with x.value
                  (snap.timestamp ++ '-' :: intToMStr snap.buildNumber)) = some entry →
              Resolver.download repo fetch httpOk a =
                download0 repo httpOk ⟨a, entry.value⟩)
            ∧ ((meta.versioning.snapshot_versions.getD []).find?
                (fun x => ends_with x.value
                  (snap.timestamp ++ '-' :: intToMStr snap.buildNumber)) = none →
              Resolver.download repo fetch httpOk a = download0 repo httpOk ⟨a, v⟩)) := by
  unfold Resolver.download
  rw [hv]
  simp only [hs, if_true]
  constructor
  · intro hrepo
    rw [hrepo]
    rfl
  · intro hrepo
    rw [hrepo]
    constructor
    · intro e hfetch
      simp only [hfetch, if_true]
    · intro meta snap hfetch hsnap
      rw [hfetch]
      simp only [hsnap]
      constructor
      · intro entry hfind
        simp only [findSome_if_eq_find, hfind, Option.map_some', Option.getD_some]
        simp
      · intro hfind
        simp only [findSome_if_eq_find, hfind, Option.map_none', Option.getD_none]
        simp

/-- Versioned snapshot metadata of the `org.pac4j:pac4j-http` scenario. -/
def c2_meta : VersionedMetadata :=
  ⟨"org.pac4j".data, "pac4j-http".data,
    ⟨none, none, none, some "20250607033109".data,
      some ⟨"20250607.033109".data, 15⟩,
      some [⟨none, some "jar".data, "6.1.4-20250607.033109-15".data,
        "20250607033109".data⟩]⟩⟩

/-- The coordinate `org.pac4j:pac4j-http:6.1.4-SNAPSHOT`. -/
def c2_artifact : Artifact :=
  ⟨"org.pac4j".data, "pac4j-http".data, some "6.1.4-SNAPSHOT".data, none, none⟩

/-- A snapshot-enabled repository. -/
def c2_repo : Repository :=
  Repository.new "/repository/maven-snapshots/".data true false

/-- Witness for C2 on the pac4j snapshot scenario: the matching
`snapshotVersions` entry drives the resolved version. -/
theorem c2_witness :
    Resolver.download c2_repo (fun _ => Res.ok c2_meta) true c2_artifact =
      download0 c2_repo true ⟨c2_artifact, "6.1.4-20250607.033109-15".data⟩ :=
  ((((c2_snapshot_resolution c2_repo (fun _ => Res.ok c2_meta) true c2_artifact
      "6.1.4-SNAPSHOT".data rfl (by decide)).2 rfl).2 c2_meta
    ⟨"20250607.033109".data, 15⟩ rfl rfl).1
    ⟨none, some "jar".data, "6.1.4-20250607.033109-15".data, "20250607033109".data⟩
    (by decide))

/-- C9: when the fetched versioned metadata has no `snapshot` block (which
the metadata parser permits), a snapshot download panics on the unguarded
unwrap instead of returning an error; with the block present it never
panics. -/
theorem c9_snapshot_unwrap_panic (repo : Repository) (fetch : MStr → Res VersionedMetadata)
    (httpOk : Bool) (a : Artifact) (v : MStr) (meta : VersionedMetadata)
    (hv : a.version = some v) (hs : Artifact.is_snapshot a = true)
    (hsn : repo.snapshots = true) (hm : fetch (path0 a v) = Res.ok meta) :
    (meta.versioning.snapshot = none →
      Resolver.download repo fetch httpOk a = DlResult.panic)
    ∧ (∀ snap, meta.versioning.snapshot = some snap →
        Resolver.download repo fetch httpOk a ≠ DlResult.panic) := by
  unfold Resolver.download
  rw [hv]
  simp only [hs, if_true, hsn, hm]
  constructor
  · intro hsnap
    rw [hsnap]
  · intro snap hsnap
    rw [hsnap]
    unfold download0
    have hf : Artifact.file_name a = some (a.artifact_id ++ '-' :: v ++ '.' ::
        (a.extension.getD "jar".data)) := by
      unfold Artifact.file_name
      rw [hv]
      rfl
    simp only [hf]
    rcases httpOk <;> simp

/-- Metadata with no `snapshot` block, as the parser is happy to produce. -/
def c9_meta : VersionedMetadata :=
  ⟨"g".data, "a".data, ⟨some "1.0-SNAPSHOT".data, none, none, none, none, none⟩⟩

/-- The coordinate `g:a:1.0-SNAPSHOT`. -/
def c9_artifact : Artifact := ⟨"g".data, "a".data, some "1.0-SNAPSHOT".data, none, none⟩

/-- A snapshot-enabled repository for the C9 witness. -/
def c9_repo : Repository := Repository.new "/r".data true false

/-- Witness for C9: a well-formed metadata document with no `snapshot`
block parses successfully, and downloading against it panics. -/
theorem c9_witness :
    VersionedMetadata.parse (metadataDoc (some "g".data) (some "a".data)
        (some ⟨some "1.0-SNAPSHOT".data, none⟩)) = Res.ok c9_meta
    ∧ Resolver.download c9_repo (fun _ => Res.ok c9_meta) true c9_artifact =
        DlResult.panic :=
  ⟨by decide,
    (c9_snapshot_unwrap_panic c9_repo (fun _ => Res.ok c9_meta) true c9_artifact
      "1.0-SNAPSHOT".data c9_meta rfl (by decide) rfl rfl).1 rfl⟩

/-- The part of the projected URL path after the base path and the joining
slash. -/
def uri_tail (ra : ResolvedArtifact) : MStr :=
  let current := ra.rpath ++ '/' :: ra.artifact.artifact_id ++ '-' :: ra.resolved_version
  let current :=
    match ra.artifact.classifier with
    | some c => current ++ '-' :: c
    | none => current
  current ++ '.' :: (ra.artifact.extension.getD "jar".data)

/-- Counterexample to C8 as stated: a base path ending in `//` keeps one of
its trailing slashes (the constructor strips only one), and for a host-only
base (path `/`) the constructor is a no-op (`set_path` keeps a special
URL's path non-empty), so in both cases the projected URL contains a double
slash between the base and the artifact path. -/
theorem c8_counterexample :
    ends_with "/m//".data "/".data = true
    ∧ ResolvedArtifact.uri_path ⟨⟨"g".data, "a".data, some "1".data, none, none⟩, "1".data⟩
        (Repository.new "/m//".data true true) = "/m//g/a/1/a-1.jar".data
    ∧ "//".data <:+: "/m//g/a/1/a-1.jar".data
    ∧ (Repository.new "/".data true true).path = "/".data
    ∧ ResolvedArtifact.uri_path ⟨⟨"g".data, "a".data, some "1".data, none, none⟩, "1".data⟩
        (Repository.new "/".data true true) = "//g/a/1/a-1.jar".data
    ∧ "//".data <:+: "//g/a/1/a-1.jar".data := by decide

/-- C8 amended: the constructor strips a single trailing slash from the
base path, except that a bare `/` stays `/`; so whenever the base path does
not end in two slashes and is not the bare host-only `/`, the projected URL
is the stripped base, a single joining slash, and the artifact path — no
double slash at the junction (the stripped base does not end in a slash). -/
theorem c8_no_double_slash (bp : MStr) (h : ¬ ("//".data <:+ bp)) (h2 : bp ≠ "/".data)
    (snapshots releases : Bool) (ra : ResolvedArtifact) :
    ResolvedArtifact.uri_path ra (Repository.new bp snapshots releases) =
      (Repository.new bp snapshots releases).path ++ '/' :: uri_tail ra
    ∧ ¬ ("/".data <:+ (Repository.new bp snapshots releases).path) := by
  constructor
  · unfold ResolvedArtifact.uri_path uri_tail
    rcases ra.artifact.classifier with _ | c <;> simp [List.append_assoc]
  · unfold Repository.new
    simp only [ends_with]
    split
    · rename_i hb
      have hb2 : "/".data <:+ bp := of_decide_eq_true hb
      obtain ⟨t, ht⟩ := hb2
      rw [← ht, List.dropLast_concat]
      rcases t with _ | ⟨c0, t0⟩
      · exfalso
        apply h2
        rw [← ht]
        rfl
      · rw [if_neg (by simp : ¬(c0 :: t0 = []))]
        intro hsuf
        obtain ⟨t2, ht2⟩ := hsuf
        apply h
        rw [← ht, ← ht2]
        exact ⟨t2, by simp⟩
    · rename_i hb
      intro hsuf
      exact hb (decide_eq_true hsuf)

/-- Witness for the amended C8 with a single-trailing-slash base. -/
theorem c8_witness :
    ResolvedArtifact.uri_path
        ⟨⟨"com.example".data, "artifact".data, some "1.0.0".data, none, none⟩, "1.0.0".data⟩
        (Repository.new "/maven2/".data false true) =
      (Repository.new "/maven2/".data false true).path ++ '/' ::
        uri_tail ⟨⟨"com.example".data, "artifact".data, some "1.0.0".data, none, none⟩,
          "1.0.0".data⟩
    ∧ ¬ ("/".data <:+ (Repository.new "/maven2/".data false true).path) :=
  c8_no_double_slash "/maven2/".data (by decide) (by decide) false true
    ⟨⟨"com.example".data, "artifact".data, some "1.0.0".data, none, none⟩, "1.0.0".data⟩

example : Artifact.parse "g:a:v".data =
    Res.ok ⟨"g".data, "a".data, some "v".data, none, none⟩ := by decide

example : Artifact.parse "groupId:artifact:packaging:classifier:version".data =
    Res.ok ⟨"groupId".data, "artifact".data, some "version".data,
      some "packaging".data, some "classifier".data⟩ := by decide

example :
    Artifact.render ⟨"g".data, "a".data, some "v".data, some "jar".data, none⟩ =
      "g:a:v".data := by decide

example :
    Artifact.render ⟨"g".data, "a".data, some "v".data, none, some "c".data⟩ =
      "g:a:jar:c:v".data := by decide
